import Mathlib

/-! Shallow embedding of the authentication core of the task-management
service: the password policy (`app/core/validators.py`), the credential
hasher and token service (`app/core/security.py`), and the authentication
orchestrator (`app/services/auth.py`), together with the configuration
surface they consume (`app/core/config.py`).

Time is modelled as a natural number of seconds since an arbitrary epoch;
nullable timestamp columns become `Option Nat`. Database rows are plain
records; each orchestrator operation returns the row it persists next to
its result, and a Python exception that escapes the operation is an
`Except.error` carrying the exception's message. -/

/-- The slice of `Settings` (app/core/config.py) consumed by the auth core,
with the durations kept in their configured units (minutes / days / hours). -/
structure Settings where
  SECRET_KEY : String
  ALGORITHM : String
  ACCESS_TOKEN_EXPIRE_MINUTES : Nat
  REFRESH_TOKEN_EXPIRE_DAYS : Nat
  EMAIL_VERIFICATION_EXPIRE_HOURS : Nat
  PASSWORD_RESET_EXPIRE_HOURS : Nat
  PASSWORD_MIN_LENGTH : Nat
  PASSWORD_REQUIRE_UPPERCASE : Bool
  PASSWORD_REQUIRE_LOWERCASE : Bool
  PASSWORD_REQUIRE_DIGITS : Bool
  PASSWORD_REQUIRE_SPECIAL : Bool
deriving DecidableEq

/-- The default values of the fields above, as declared in config.py. -/
def defaultSettings : Settings where
  SECRET_KEY := "secret-key-change-in-production-MUST-BE-64-CHARS-MINIMUM-PLEASE-CHANGE"
  ALGORITHM := "HS256"
  ACCESS_TOKEN_EXPIRE_MINUTES := 60
  REFRESH_TOKEN_EXPIRE_DAYS := 30
  EMAIL_VERIFICATION_EXPIRE_HOURS := 24
  PASSWORD_RESET_EXPIRE_HOURS := 1
  PASSWORD_MIN_LENGTH := 8
  PASSWORD_REQUIRE_UPPERCASE := true
  PASSWORD_REQUIRE_LOWERCASE := true
  PASSWORD_REQUIRE_DIGITS := true
  PASSWORD_REQUIRE_SPECIAL := true

/-- Python `re.search("[A-Z]", password)` (validators.py line 20): the
password contains an ASCII uppercase letter. -/
def hasAsciiUpper (password : String) : Bool :=
  password.data.any (fun c => 65 ≤ c.toNat && c.toNat ≤ 90)

/-- Python `re.search("[a-z]", password)` (validators.py line 23). -/
def hasAsciiLower (password : String) : Bool :=
  password.data.any (fun c => 97 ≤ c.toNat && c.toNat ≤ 122)

/-- Python `re.search("\\d", password)` (validators.py line 26); the ASCII
decimal digits (the Unicode digits Python's `\\d` also accepts are not
modelled — every claim here is about ASCII passwords). -/
def hasAsciiDigit (password : String) : Bool :=
  password.data.any (fun c => 48 ≤ c.toNat && c.toNat ≤ 57)

/-- The fixed special-character class of validators.py line 29. -/
def specialChars : List Char :=
  ['!', '@', '#', '$', '%', '^', '&', '*', '(', ')', ',', '.', '?', '"',
   ':', '{', '}', '|', '<', '>']

/-- Python `re.search("[!@#$%^&*(),.?\":{}|<>]", password)`. -/
def hasSpecialChar (password : String) : Bool :=
  password.data.any (fun c => specialChars.contains c)

/-- validate_password_strength (validators.py lines 5-32): the chain of
early returns, one per rule, in source order. -/
def validate_password_strength (settings : Settings) (password : String) :
    Bool × String :=
  if password.length < settings.PASSWORD_MIN_LENGTH then
    (false, "Password must be at least " ++ toString settings.PASSWORD_MIN_LENGTH
      ++ " characters long")
  else if settings.PASSWORD_REQUIRE_UPPERCASE && !hasAsciiUpper password then
    (false, "Password must contain at least one uppercase letter")
  else if settings.PASSWORD_REQUIRE_LOWERCASE && !hasAsciiLower password then
    (false, "Password must contain at least one lowercase letter")
  else if settings.PASSWORD_REQUIRE_DIGITS && !hasAsciiDigit password then
    (false, "Password must contain at least one digit")
  else if settings.PASSWORD_REQUIRE_SPECIAL && !hasSpecialChar password then
    (false, "Password must contain at least one special character (!@#$%^&*(),.?\x22:\x7b\x7d|<>)")
  else
    (true, "")

/-- is_strong_password (validators.py lines 35-51): raises ValueError with
the first failing reason, otherwise returns True. -/
def is_strong_password (settings : Settings) (password : String) :
    Except String Bool :=
  match validate_password_strength settings password with
  | (true, _) => .ok true
  | (false, msg) => .error msg

/-- Symbolic model of `pwd_context.hash` (passlib with the bcrypt scheme,
security.py lines 8-11 and 135-145): the digest is a bcrypt-tagged string
determined by the password; the salt and the adaptive hash computation are
abstracted into an injective tagged encoding. -/
def get_password_hash (password : String) : String :=
  "$2b$12$" ++ password

/-- Scheme identification performed by passlib before verifying: a digest
is recognizable exactly when it carries the bcrypt tag. -/
def bcryptIdentify (digest : String) : Bool :=
  List.isPrefixOf ['$', '2', 'b', '$'] digest.data

/-- Model of `pwd_context.verify` (passlib `CryptContext.verify`): per its
documented contract it first identifies the hash scheme from the digest and
raises `UnknownHashError` (a `ValueError`, "hash could not be identified")
when the digest matches no configured scheme; on a recognizable bcrypt
digest it returns whether the password matches. -/
def pwd_context_verify (plain_password hashed_password : String) :
    Except String Bool :=
  if bcryptIdentify hashed_password then
    .ok (hashed_password == get_password_hash plain_password)
  else
    .error "hash could not be identified"

/-- verify_password (security.py lines 121-132): a bare delegation to
`pwd_context.verify` with no exception handling, so the hasher's error on
an unidentifiable digest propagates to the caller. -/
def verify_password (plain_password hashed_password : String) :
    Except String Bool :=
  pwd_context_verify plain_password hashed_password

/-- A decoded JWT payload: the caller-supplied claims (a string-to-string
dict) next to the registered claims `exp`, `iat` and `type` that the token
creators always set (overriding any caller entry with those keys, as
`dict.update` does). -/
structure Payload where
  claims : List (String × String)
  exp : Nat
  iat : Nat
  type : String
deriving DecidableEq

/-- A JWT on the wire: either a well-formed token, carrying the payload it
was signed over together with the secret and algorithm of its signature,
or a string that does not parse as a token at all. -/
inductive Token where
  | signed (payload : Payload) (secret : String) (alg : String)
  | malformed (raw : String)
deriving DecidableEq

/-- The registered claim keys that `dict.update` overrides in every
token-creation function (security.py lines 28-32, 50-54). -/
def reservedClaim (k : String) : Bool :=
  k == "exp" || k == "iat" || k == "type"

/-- `to_encode = subject.copy(); to_encode.update({exp, iat, type})`: the
caller claims with any reserved keys dropped in favour of the dedicated
fields. -/
def buildPayload (subject : List (String × String)) (exp iat : Nat)
    (ty : String) : Payload :=
  ⟨subject.filter (fun kv => !reservedClaim kv.1), exp, iat, ty⟩

/-- `jwt.encode(to_encode, secret, algorithm)`: signing is symbolic — the
token records the payload, secret and algorithm. -/
def jwt_encode (payload : Payload) (secret : String) (alg : String) : Token :=
  .signed payload secret alg

/-- `jwt.decode(token, secret, algorithms=[...])` (python-jose): raises
JWTError (caught by the callers here, hence `none`) on a malformed token,
a signature made with another secret or an algorithm outside the allowed
list, or an expired token; per the documented contract a token is accepted
only while unexpired, modelled as `now < exp`. -/
def jwt_decode (token : Token) (secret : String) (algorithms : List String)
    (now : Nat) : Option Payload :=
  match token with
  | .malformed _ => none
  | .signed payload tokSecret tokAlg =>
    if tokSecret = secret ∧ tokAlg ∈ algorithms ∧ now < payload.exp then
      some payload
    else
      none

/-- create_access_token (security.py lines 14-33); `expires_delta` is in
seconds when supplied, the default is ACCESS_TOKEN_EXPIRE_MINUTES minutes. -/
def create_access_token (settings : Settings) (now : Nat)
    (subject : List (String × String)) (expires_delta : Option Nat) : Token :=
  let expire := now + expires_delta.getD (settings.ACCESS_TOKEN_EXPIRE_MINUTES * 60)
  jwt_encode (buildPayload subject expire now "access")
    settings.SECRET_KEY settings.ALGORITHM

/-- create_refresh_token (security.py lines 36-55); the default lifetime is
REFRESH_TOKEN_EXPIRE_DAYS days. -/
def create_refresh_token (settings : Settings) (now : Nat)
    (subject : List (String × String)) (expires_delta : Option Nat) : Token :=
  let expire := now + expires_delta.getD (settings.REFRESH_TOKEN_EXPIRE_DAYS * 86400)
  jwt_encode (buildPayload subject expire now "refresh")
    settings.SECRET_KEY settings.ALGORITHM

/-- create_email_verification_token (security.py lines 58-76). -/
def create_email_verification_token (settings : Settings) (now : Nat)
    (email : String) : Token :=
  let expire := now + settings.EMAIL_VERIFICATION_EXPIRE_HOURS * 3600
  jwt_encode ⟨[("sub", email)], expire, now, "email_verification"⟩
    settings.SECRET_KEY settings.ALGORITHM

/-- create_password_reset_token (security.py lines 79-97). -/
def create_password_reset_token (settings : Settings) (now : Nat)
    (email : String) : Token :=
  let expire := now + settings.PASSWORD_RESET_EXPIRE_HOURS * 3600
  jwt_encode ⟨[("sub", email)], expire, now, "password_reset"⟩
    settings.SECRET_KEY settings.ALGORITHM

/-- verify_token (security.py lines 100-118): decode under the configured
secret and algorithm (any JWTError yields None), then reject on a type
mismatch, else return the payload. -/
def verify_token (settings : Settings) (now : Nat) (token : Token)
    (expected_type : String) : Option Payload :=
  match jwt_decode token settings.SECRET_KEY [settings.ALGORITHM] now with
  | none => none
  | some payload =>
    if payload.type ≠ expected_type then none else some payload

/-- `payload.get(key)` on the decoded dict; the registered keys `exp`,
`iat`, `type` are never looked up this way in the orchestrator, only the
caller claims are. -/
def payloadGet (payload : Payload) (k : String) : Option String :=
  payload.claims.lookup k

/-- The columns of the users table the auth core reads and writes
(app/models/user.py); `created_at` and `updated_at` are server-assigned
and never consulted by the orchestrator, so they are omitted. -/
structure User where
  id : Nat
  email : String
  username : String
  hashed_password : String
  is_verified : Bool
  is_active : Bool
  failed_login_attempts : Nat
  last_failed_login : Option Nat
  account_locked_until : Option Nat
deriving DecidableEq

/-- services/auth.py line 19. -/
def MAX_FAILED_ATTEMPTS : Nat := 5

/-- services/auth.py line 20. -/
def LOCKOUT_DURATION_MINUTES : Nat := 15

/-- The tokens dict returned on a successful login or refresh. -/
structure TokenPair where
  access_token : Token
  refresh_token : Token
  token_type : String
deriving DecidableEq

/-- Model of Python `str.strip()` with no argument: remove leading and
trailing whitespace. -/
def pyStrip (s : String) : String :=
  ⟨((s.data.dropWhile Char.isWhitespace).reverse.dropWhile
      Char.isWhitespace).reverse⟩

/-- Model of Python `str.lower()` on the ASCII range (the claims only
involve ASCII emails). -/
def pyLower (s : String) : String :=
  ⟨s.data.map Char.toLower⟩

/-- Model of Python `int(s)` on a string: strip surrounding whitespace,
an optional sign, then at least one decimal digit (digit-group underscores
are not modelled); anything else raises ValueError. -/
def decDigitsVal (digits : List Char) : Nat :=
  digits.foldl (fun n c => n * 10 + (c.toNat - 48)) 0

/-- The ValueError message Python raises for a bad `int()` literal. -/
def pyIntErr (s : String) : String :=
  "invalid literal for int() with base 10: " ++ s

/-- Python `int(s)` itself. -/
def pyInt (s : String) : Except String Int :=
  let t := (pyStrip s).data
  let signAndDigits : Int × List Char :=
    match t with
    | '+' :: rest => (1, rest)
    | '-' :: rest => (-1, rest)
    | rest => (1, rest)
  let digits := signAndDigits.2
  if digits.isEmpty || !digits.all Char.isDigit then
    .error (pyIntErr s)
  else
    .ok (signAndDigits.1 * (decDigitsVal digits : Int))

/-- Lines 100-133 of services/auth.py: the is_active check, the password
check with its failed-attempt bookkeeping, and token issuance, i.e. the
part of authenticate_user after the lockout gate. Returns the user row as
persisted next to the login result (`some` tokens on success, `none` for
the Unauthenticated `(None, None)` return); an exception from the hasher
propagates. -/
def authenticate_checks (settings : Settings) (now : Nat) (user : User)
    (password : String) : Except String (User × Option TokenPair) :=
  if user.is_active = false then
    .ok (user, none)
  else
    match verify_password password user.hashed_password with
    | .error e => .error e
    | .ok pwOk =>
      if pwOk = false then
        let u1 : User := { user with
          failed_login_attempts := user.failed_login_attempts + 1,
          last_failed_login := some now }
        let u2 : User :=
          if MAX_FAILED_ATTEMPTS ≤ u1.failed_login_attempts then
            { u1 with
              account_locked_until := some (now + LOCKOUT_DURATION_MINUTES * 60) }
          else u1
        .ok (u2, none)
      else
        let u1 : User :=
          if 0 < user.failed_login_attempts then
            { user with failed_login_attempts := 0, last_failed_login := none }
          else user
        .ok (u1, some {
          access_token :=
            create_access_token settings now [("sub", toString user.id)] none,
          refresh_token :=
            create_refresh_token settings now [("sub", toString user.id)] none,
          token_type := "bearer" })

/-- authenticate_user (services/auth.py lines 66-133) for a user the email
lookup found: the account-lockout gate of lines 90-98 — reject while the
lockout is in the future, otherwise clear the lockout and reset the
counter before proceeding — and then the checks above. -/
def authenticate_user (settings : Settings) (now : Nat) (user : User)
    (password : String) : Except String (User × Option TokenPair) :=
  match user.account_locked_until with
  | some lockedUntil =>
    if now < lockedUntil then
      .ok (user, none)
    else
      authenticate_checks settings now
        { user with account_locked_until := none, failed_login_attempts := 0 }
        password
  | none => authenticate_checks settings now user password

/-- The `if not user: return None, None` entry of authenticate_user
(lines 85-88), over the result of the email lookup. -/
def authenticate_lookup (settings : Settings) (now : Nat)
    (found : Option User) (password : String) :
    Except String (Option User × Option TokenPair) :=
  match found with
  | none => .ok (none, none)
  | some user =>
    match authenticate_user settings now user password with
    | .error e => .error e
    | .ok (u, r) => .ok (some u, r)

/-- register_user (services/auth.py lines 23-63): validate strength (the
ValueError propagates), build the row with `is_verified := false` and
`is_active := true`, insert; the IntegrityError a duplicate email raises is
caught and reported as `none`. The primary key is database-assigned and
modelled as a fresh number. -/
def register_user (settings : Settings) (existingEmails : List String)
    (email username password : String) : Except String (Option User) :=
  match is_strong_password settings password with
  | .error e => .error e
  | .ok _ =>
    let user : User := {
      id := existingEmails.length + 1,
      email := email,
      username := username,
      hashed_password := get_password_hash password,
      is_verified := false,
      is_active := true,
      failed_login_attempts := 0,
      last_failed_login := none,
      account_locked_until := none }
    if existingEmails.contains email then .ok none else .ok (some user)

/-- The outcome of the register endpoint that the claims observe: a 400
with its detail string, or the created user. -/
inductive RegisterResult where
  | badRequest (detail : String)
  | created (user : User)
deriving DecidableEq

/-- The register endpoint (api/v1/auth.py lines 88-108): the empty-field
checks, then `register_user` on the stripped, lowercased email and the
stripped username; a ValueError from the password policy becomes a 400
carrying its message, a duplicate email a 400 as well. Token issuance and
the verification email happen after the user is persisted and do not touch
the row, so they are outside this model. -/
def register (settings : Settings) (existingEmails : List String)
    (email username password : String) : RegisterResult :=
  if email == "" || username == "" || password == "" then
    .badRequest "Email, username, and password are required"
  else if pyStrip email == "" || pyStrip username == "" then
    .badRequest "Email and username cannot be empty or whitespace only"
  else
    match register_user settings existingEmails (pyLower (pyStrip email))
        (pyStrip username) password with
    | .error e => .badRequest e
    | .ok none => .badRequest "Email already registered"
    | .ok (some user) => .created user

/-- refresh_access_token (services/auth.py lines 136-169). The `sub` claim
is converted with `int(user_id)` with no guard, so a non-numeric subject
raises ValueError (`.error`); every guarded failure — failed verification,
missing or empty (falsy) sub, absent or inactive user — returns None. -/
def refresh_access_token (settings : Settings) (now : Nat)
    (users : List User) (token : Token) :
    Except String (Option TokenPair) :=
  match verify_token settings now token "refresh" with
  | none => .ok none
  | some payload =>
    match payloadGet payload "sub" with
    | none => .ok none
    | some userId =>
      if userId == "" then .ok none
      else
        match pyInt userId with
        | .error e => .error e
        | .ok n =>
          match users.find? (fun u => (u.id : Int) == n) with
          | none => .ok none
          | some user =>
            if user.is_active = false then .ok none
            else
              .ok (some {
                access_token := create_access_token settings now
                  [("sub", toString user.id)] none,
                refresh_token := create_refresh_token settings now
                  [("sub", toString user.id)] none,
                token_type := "bearer" })

/-- reset_password (services/auth.py lines 227-265): password strength is
validated first (its ValueError propagates before the token is looked at),
then the token must verify with type password_reset, the sub claim must be
a non-empty email, and the user must exist; only then is the row written —
with the new hash and all lockout state cleared. Returns the written row
(none when nothing was written) next to the boolean result. -/
def reset_password (settings : Settings) (now : Nat)
    (findByEmail : String → Option User) (token : Token)
    (new_password : String) : Except String (Option User × Bool) :=
  match is_strong_password settings new_password with
  | .error e => .error e
  | .ok _ =>
    match verify_token settings now token "password_reset" with
    | none => .ok (none, false)
    | some payload =>
      match payloadGet payload "sub" with
      | none => .ok (none, false)
      | some email =>
        if email == "" then .ok (none, false)
        else
          match findByEmail email with
          | none => .ok (none, false)
          | some user =>
            .ok (some { user with
              hashed_password := get_password_hash new_password,
              failed_login_attempts := 0,
              last_failed_login := none,
              account_locked_until := none }, true)

/-- One row of the spec's rule table for the password policy: whether the
rule is enabled by configuration, whether this password satisfies it, and
the reason reported when it is the first violated rule. -/
structure PolicyRule where
  enabled : Bool
  ok : Bool
  reason : String

/-- The spec's rule list in its fixed order — length, uppercase, lowercase,
digit, special — each non-length rule guarded by its configuration toggle.
This is the spec-side description that `validate_password_strength` (the
source translation) is compared against. -/
def policyRules (settings : Settings) (password : String) :
    List PolicyRule :=
  [⟨true, !decide (password.length < settings.PASSWORD_MIN_LENGTH),
      "Password must be at least " ++ toString settings.PASSWORD_MIN_LENGTH
        ++ " characters long"⟩,
   ⟨settings.PASSWORD_REQUIRE_UPPERCASE, hasAsciiUpper password,
      "Password must contain at least one uppercase letter"⟩,
   ⟨settings.PASSWORD_REQUIRE_LOWERCASE, hasAsciiLower password,
      "Password must contain at least one lowercase letter"⟩,
   ⟨settings.PASSWORD_REQUIRE_DIGITS, hasAsciiDigit password,
      "Password must contain at least one digit"⟩,
   ⟨settings.PASSWORD_REQUIRE_SPECIAL, hasSpecialChar password,
      "Password must contain at least one special character (!@#$%^&*(),.?\x22:\x7b\x7d|<>)"⟩]

/-- The reason of the first enabled rule the password violates, if any. -/
def firstViolation (rules : List PolicyRule) : Option String :=
  (rules.find? (fun r => r.enabled && !r.ok)).map (fun r => r.reason)

/-- Case analysis of `authenticate_checks`: the four disjoint outcomes of
the stage after the lockout gate — inactive account, hasher exception,
failed password with its bookkeeping, successful password with its reset
and token pair. -/
theorem authenticate_checks_spec (settings : Settings) (now : Nat)
    (user : User) (password : String) :
    (user.is_active = false →
      authenticate_checks settings now user password = .ok (user, none)) ∧
    (∀ e, user.is_active = true →
      verify_password password user.hashed_password = .error e →
      authenticate_checks settings now user password = .error e) ∧
    (user.is_active = true →
      verify_password password user.hashed_password = .ok false →
      authenticate_checks settings now user password = .ok
        ((if MAX_FAILED_ATTEMPTS ≤ user.failed_login_attempts + 1 then
          { user with
            failed_login_attempts := user.failed_login_attempts + 1,
            last_failed_login := some now,
            account_locked_until := some (now + LOCKOUT_DURATION_MINUTES * 60) }
        else
          { user with
            failed_login_attempts := user.failed_login_attempts + 1,
            last_failed_login := some now }), none)) ∧
    (user.is_active = true →
      verify_password password user.hashed_password = .ok true →
      authenticate_checks settings now user password = .ok
        ((if 0 < user.failed_login_attempts then
          { user with failed_login_attempts := 0, last_failed_login := none }
        else user),
        some ⟨create_access_token settings now [("sub", toString user.id)] none,
          create_refresh_token settings now [("sub", toString user.id)] none,
          "bearer"⟩)) := by
  refine ⟨fun h => by simp [authenticate_checks, h],
    fun e ha hv => by simp [authenticate_checks, ha, hv],
    fun ha hv => ?_, fun ha hv => ?_⟩
  · simp only [authenticate_checks, ha, hv]
    split <;> simp_all
  · simp only [authenticate_checks, ha, hv]
    split <;> simp_all

/-- C1: on a login attempt where the user exists, is active, is not
locked, and the password check fails, `failed_login_attempts` is
incremented by one and `last_failed_login` is set to now; when the
incremented count reaches MAX_FAILED_ATTEMPTS (5) the account is locked
until now + 15 minutes, otherwise `account_locked_until` is unchanged;
and the call returns the unauthenticated result. -/
theorem failed_login_updates_lockout_state (settings : Settings) (now : Nat)
    (user : User) (password : String)
    (hactive : user.is_active = true)
    (hunlocked : user.account_locked_until = none)
    (hfail : verify_password password user.hashed_password = .ok false) :
    ∃ u, authenticate_user settings now user password = .ok (u, none) ∧
      u.failed_login_attempts = user.failed_login_attempts + 1 ∧
      u.last_failed_login = some now ∧
      (MAX_FAILED_ATTEMPTS ≤ user.failed_login_attempts + 1 →
        u.account_locked_until = some (now + LOCKOUT_DURATION_MINUTES * 60)) ∧
      (user.failed_login_attempts + 1 < MAX_FAILED_ATTEMPTS →
        u.account_locked_until = user.account_locked_until) := by
  have hau : authenticate_user settings now user password =
      authenticate_checks settings now user password := by
    unfold authenticate_user
    rw [hunlocked]
  have hspec := (authenticate_checks_spec settings now user password).2.2.1
    hactive hfail
  by_cases hm : MAX_FAILED_ATTEMPTS ≤ user.failed_login_attempts + 1
  · rw [if_pos hm] at hspec
    exact ⟨_, by rw [hau, hspec], rfl, rfl, fun _ => rfl,
      fun hlt => absurd hm (by omega)⟩
  · rw [if_neg hm] at hspec
    exact ⟨_, by rw [hau, hspec], rfl, rfl, fun hge => absurd hge hm,
      fun _ => by rw [hunlocked]⟩

/-- Witness for C1: one wrong-password attempt on a fresh active user at
time 100 moves the counter from 0 to 1, stamps the failure time, leaves
the account unlocked (1 < 5), and is rejected. -/
def c1User : User :=
  { id := 1, email := "alice@example.com", username := "alice",
    hashed_password := get_password_hash "Alice123!", is_verified := false,
    is_active := true, failed_login_attempts := 0, last_failed_login := none,
    account_locked_until := none }

/-- The C1 theorem applied at the concrete input above. -/
theorem failed_login_updates_lockout_state_witness :
    ∃ u, authenticate_user defaultSettings 100 c1User "wrong" = .ok (u, none) ∧
      u.failed_login_attempts = c1User.failed_login_attempts + 1 ∧
      u.last_failed_login = some 100 ∧
      (MAX_FAILED_ATTEMPTS ≤ c1User.failed_login_attempts + 1 →
        u.account_locked_until = some (100 + LOCKOUT_DURATION_MINUTES * 60)) ∧
      (c1User.failed_login_attempts + 1 < MAX_FAILED_ATTEMPTS →
        u.account_locked_until = c1User.account_locked_until) :=
  failed_login_updates_lockout_state defaultSettings 100 c1User "wrong"
    rfl rfl rfl

/-- C2: while `account_locked_until` is set and in the future, a login
attempt is rejected with the row unchanged — for every password and every
stored digest (even one the hasher would raise on), which is how the model
expresses that the password hash check is not invoked; once the lockout
has expired, the call behaves exactly like a login on the same user with
the lockout cleared and the counter reset, evaluating `is_active` and the
password normally in the same call. -/
theorem locked_account_gate (settings : Settings) (now : Nat) (user : User)
    (password : String) (lockedUntil : Nat)
    (hlocked : user.account_locked_until = some lockedUntil) :
    (now < lockedUntil →
      authenticate_user settings now user password = .ok (user, none)) ∧
    (lockedUntil ≤ now →
      authenticate_user settings now user password =
        authenticate_user settings now
          { user with account_locked_until := none, failed_login_attempts := 0 }
          password) := by
  have heq : authenticate_user settings now user password =
      if now < lockedUntil then .ok (user, none)
      else
        authenticate_checks settings now
          { user with account_locked_until := none, failed_login_attempts := 0 }
          password := by
    unfold authenticate_user
    rw [hlocked]
  constructor
  · intro h
    rw [heq, if_pos h]
  · intro h
    rw [heq, if_neg (Nat.not_lt.mpr h)]
    rfl

/-- Witness for C2, first at time 50 inside a lockout that ends at 100
(the stored digest is even malformed, underlining that no hash check
runs), then at time 150 past it. -/
def c2User : User :=
  { id := 2, email := "bob@example.com", username := "bob",
    hashed_password := "not-a-bcrypt-digest", is_verified := false,
    is_active := true, failed_login_attempts := 5,
    last_failed_login := some 40, account_locked_until := some 100 }

/-- The C2 theorem applied at the concrete input above. -/
theorem locked_account_gate_witness :
    (50 < 100 →
      authenticate_user defaultSettings 50 c2User "whatever" =
        .ok (c2User, none)) ∧
    (100 ≤ 50 →
      authenticate_user defaultSettings 50 c2User "whatever" =
        authenticate_user defaultSettings 50
          { c2User with
            account_locked_until := none, failed_login_attempts := 0 }
          "whatever") :=
  locked_account_gate defaultSettings 50 c2User "whatever" 100 rfl

/-- A user whose lockout (until time 100) has already expired at the
attempt time 200, and who still carries a non-zero failure counter. -/
def c3User : User :=
  { id := 3, email := "carol@example.com", username := "carol",
    hashed_password := get_password_hash "Carol123!", is_verified := false,
    is_active := true, failed_login_attempts := 3,
    last_failed_login := some 90, account_locked_until := some 100 }

/-- C3 counterexample: a login attempt at time 200 that observes the
expired lockout of `c3User` but then fails the password check ends the
call with `failed_login_attempts = 1`, not 0 — the observation resets the
counter, but the failed check in the same call increments it again. -/
theorem expired_lockout_observation_cex :
    ∃ u, authenticate_user defaultSettings 200 c3User "wrong" =
        .ok (u, none) ∧ u.failed_login_attempts ≠ 0 := by
  refine ⟨_, rfl, ?_⟩
  decide

/-- Unfolding equation for the lockout gate when `account_locked_until`
is set. -/
theorem authenticate_user_eq_locked (settings : Settings) (now : Nat)
    (user : User) (password : String) (lockedUntil : Nat)
    (hlocked : user.account_locked_until = some lockedUntil) :
    authenticate_user settings now user password =
      if now < lockedUntil then .ok (user, none)
      else
        authenticate_checks settings now
          { user with account_locked_until := none, failed_login_attempts := 0 }
          password := by
  unfold authenticate_user
  rw [hlocked]

/-- Unfolding equation for the lockout gate when `account_locked_until`
is not set. -/
theorem authenticate_user_eq_unlocked (settings : Settings) (now : Nat)
    (user : User) (password : String)
    (hunlocked : user.account_locked_until = none) :
    authenticate_user settings now user password =
      authenticate_checks settings now user password := by
  unfold authenticate_user
  rw [hunlocked]

/-- C3 amended: (a) after a successful login the counter is 0 and the
lockout is clear; (b) after a login attempt that observes an
already-expired lockout, the lockout is clear, and the counter is 0
unless the account is active and the password check fails in that same
call, in which case it is 1; (c) after a completed password reset the
counter is 0, the lockout is clear, and the failure timestamp is clear,
regardless of the prior lockout state. -/
theorem auth_reset_clears_lockout_state (settings : Settings) (now : Nat)
    (user : User) (password : String) :
    (∀ u tp, authenticate_user settings now user password = .ok (u, some tp) →
      u.failed_login_attempts = 0 ∧ u.account_locked_until = none) ∧
    (∀ lockedUntil, user.account_locked_until = some lockedUntil →
      lockedUntil ≤ now →
      ∀ u r, authenticate_user settings now user password = .ok (u, r) →
        u.account_locked_until = none ∧
        (user.is_active = false → u.failed_login_attempts = 0) ∧
        (user.is_active = true →
          verify_password password user.hashed_password = .ok true →
          u.failed_login_attempts = 0) ∧
        (user.is_active = true →
          verify_password password user.hashed_password = .ok false →
          u.failed_login_attempts = 1)) ∧
    (∀ (findByEmail : String → Option User) (token : Token)
        (newPassword : String) (u : User),
      reset_password settings now findByEmail token newPassword =
        .ok (some u, true) →
      u.failed_login_attempts = 0 ∧ u.account_locked_until = none ∧
        u.last_failed_login = none) := by
  have hchecks : ∀ v u tp,
      authenticate_checks settings now v password = .ok (u, some tp) →
      u.failed_login_attempts = 0 ∧
        u.account_locked_until = v.account_locked_until := by
    intro v u tp h
    unfold authenticate_checks at h
    split at h
    · simp at h
    · split at h
      · simp at h
      · split at h
        · simp at h
        · simp only [Except.ok.injEq, Prod.mk.injEq, Option.some.injEq] at h
          obtain ⟨hu, -⟩ := h
          subst hu
          split
          · exact ⟨rfl, rfl⟩
          · rename_i hcnt
            exact ⟨by omega, rfl⟩
  refine ⟨?_, ?_, ?_⟩
  · intro u tp h
    cases hL : user.account_locked_until with
    | none =>
      rw [authenticate_user_eq_unlocked settings now user password hL] at h
      obtain ⟨h0, h1⟩ := hchecks _ u tp h
      exact ⟨h0, by rw [h1, hL]⟩
    | some lockedUntil =>
      rw [authenticate_user_eq_locked settings now user password lockedUntil
        hL] at h
      by_cases hlt : now < lockedUntil
      · rw [if_pos hlt] at h
        simp at h
      · rw [if_neg hlt] at h
        exact (hchecks _ u tp h).imp_right (fun hl => hl)
  · intro lockedUntil hlock hle u r h
    rw [authenticate_user_eq_locked settings now user password lockedUntil
      hlock, if_neg (Nat.not_lt.mpr hle)] at h
    have hspec := authenticate_checks_spec settings now
      { user with account_locked_until := none, failed_login_attempts := 0 }
      password
    by_cases ha : user.is_active = true
    · cases hv : verify_password password user.hashed_password with
      | error e =>
        rw [hspec.2.1 e ha hv] at h
        simp at h
      | ok b =>
        cases b with
        | false =>
          rw [hspec.2.2.1 ha hv,
            if_neg (show ¬ MAX_FAILED_ATTEMPTS ≤ 0 + 1 by decide)] at h
          simp only [Except.ok.injEq, Prod.mk.injEq] at h
          obtain ⟨hu, -⟩ := h
          subst hu
          refine ⟨rfl, fun hf => ?_, fun _ hvt => ?_, fun _ _ => rfl⟩
          · rw [hf] at ha; cases ha
          · simp at hvt
        | true =>
          rw [hspec.2.2.2 ha hv,
            if_neg (show ¬ (0 : Nat) < 0 by decide)] at h
          simp only [Except.ok.injEq, Prod.mk.injEq] at h
          obtain ⟨hu, -⟩ := h
          subst hu
          refine ⟨rfl, fun _ => rfl, fun _ _ => rfl, fun _ hvf => ?_⟩
          simp at hvf
    · have ha2 : user.is_active = false := by
        revert ha; cases user.is_active <;> simp
      rw [hspec.1 ha2] at h
      simp only [Except.ok.injEq, Prod.mk.injEq] at h
      obtain ⟨hu, -⟩ := h
      subst hu
      refine ⟨rfl, fun _ => rfl, fun _ _ => rfl, fun hact _ => ?_⟩
      rw [hact] at ha2
      cases ha2
  · intro findByEmail token newPassword u h
    unfold reset_password at h
    split at h
    · simp at h
    · split at h
      · simp at h
      · split at h
        · simp at h
        · split at h
          · simp at h
          · split at h
            · simp at h
            · simp only [Except.ok.injEq, Prod.mk.injEq,
                Option.some.injEq] at h
              obtain ⟨hu, -⟩ := h
              subst hu
              exact ⟨rfl, rfl, rfl⟩

/-- C8 (the code at the failing input): `verify_password` on a digest the
hasher cannot identify propagates the hasher's ValueError instead of
returning false; on a well-formed digest it does return a boolean. -/
theorem verify_password_malformed_digest_raises :
    verify_password "password" "not-a-bcrypt-digest" =
        .error "hash could not be identified" ∧
      verify_password "password" (get_password_hash "password") = .ok true ∧
      verify_password "other" (get_password_hash "password") = .ok false :=
  ⟨rfl, rfl, rfl⟩


/-- C4: `verify_token` returns the decoded claims exactly when the token
is signed under the configured secret and algorithm, the current time is
before `exp`, and the `type` claim equals the expected type; every failure
cause — malformed structure, wrong secret or algorithm, expiry, type
mismatch — collapses to the single invalid result `none`, so the caller
cannot distinguish why verification failed. -/
theorem verify_token_valid_iff (settings : Settings) (now : Nat)
    (token : Token) (expected_type : String) (p : Payload) :
    verify_token settings now token expected_type = some p ↔
      token = Token.signed p settings.SECRET_KEY settings.ALGORITHM ∧
        now < p.exp ∧ p.type = expected_type := by
  cases token with
  | malformed raw =>
    simp [verify_token, jwt_decode]
  | signed payload secret alg =>
    simp only [verify_token, jwt_decode, Token.signed.injEq]
    split
    · rename_i heq
      constructor
      · intro h; cases h
      · rintro ⟨⟨rfl, hs, ha⟩, he, ht⟩
        have hnone : some payload = none :=
          (ite_eq_right_iff.mp heq) ⟨hs, List.mem_singleton.mpr ha, he⟩
        cases hnone
    · rename_i q heq
      have hc : (secret = settings.SECRET_KEY ∧
          alg ∈ [settings.ALGORITHM] ∧ now < payload.exp) ∧ payload = q := by
        by_cases hcc : secret = settings.SECRET_KEY ∧
            alg ∈ [settings.ALGORITHM] ∧ now < payload.exp
        · rw [if_pos hcc] at heq
          exact ⟨hcc, Option.some.inj heq⟩
        · rw [if_neg hcc] at heq
          cases heq
      obtain ⟨⟨hs, ha, he⟩, rfl⟩ := hc
      rw [List.mem_singleton] at ha
      split
      · rename_i ht
        constructor
        · intro h; cases h
        · rintro ⟨⟨rfl, -, -⟩, -, ht2⟩
          exact absurd ht2 ht
      · rename_i ht
        constructor
        · intro h
          obtain rfl := Option.some.inj h
          exact ⟨⟨rfl, hs, ha⟩, he, not_not.mp ht⟩
        · rintro ⟨⟨rfl, -, -⟩, -, -⟩
          rfl

/-- Filtering with a predicate every element satisfies leaves the claims
list unchanged; the hypothesis is the form `List.all` gives. -/
theorem claims_filter_eq_self (claims : List (String × String))
    (hclaims : claims.all (fun kv => !reservedClaim kv.1) = true) :
    claims.filter (fun kv => !reservedClaim kv.1) = claims :=
  List.filter_eq_self.mpr (fun kv hkv => (List.all_eq_true.mp hclaims) kv hkv)

/-- A signed token never verifies against an expected type other than its
own `type` claim, whatever its secret, algorithm and expiry. -/
theorem verify_token_type_mismatch (settings : Settings) (now2 : Nat)
    (payload : Payload) (secret alg expected_type : String)
    (hne : payload.type ≠ expected_type) :
    verify_token settings now2 (Token.signed payload secret alg)
      expected_type = none := by
  simp only [verify_token, jwt_decode]
  split
  · rfl
  · rename_i q heq
    have hq : payload = q := by
      by_cases hcc : secret = settings.SECRET_KEY ∧
          alg ∈ [settings.ALGORITHM] ∧ now2 < payload.exp
      · rw [if_pos hcc] at heq
        exact Option.some.inj heq
      · rw [if_neg hcc] at heq
        cases heq
    subst hq
    simp [hne]

/-- C5: round-trip for each of the four token creators. Verifying a token
with the type it was created with, before its expiry, returns exactly the
caller-supplied claims plus `exp`, `iat` and `type`; verifying it with any
other expected type returns the invalid result, even when signature and
expiry are otherwise valid (stated with no expiry restriction at all,
which subsumes the unexpired case). -/
theorem token_roundtrip (settings : Settings) (now now2 : Nat)
    (claims : List (String × String)) (email : String)
    (expires_delta : Option Nat) (other_type : String)
    (hclaims : claims.all (fun kv => !reservedClaim kv.1) = true) :
    (now2 < now + expires_delta.getD (settings.ACCESS_TOKEN_EXPIRE_MINUTES * 60) →
      verify_token settings now2
          (create_access_token settings now claims expires_delta) "access" =
        some ⟨claims,
          now + expires_delta.getD (settings.ACCESS_TOKEN_EXPIRE_MINUTES * 60),
          now, "access"⟩) ∧
    (other_type ≠ "access" →
      verify_token settings now2
        (create_access_token settings now claims expires_delta) other_type =
          none) ∧
    (now2 < now + expires_delta.getD (settings.REFRESH_TOKEN_EXPIRE_DAYS * 86400) →
      verify_token settings now2
          (create_refresh_token settings now claims expires_delta) "refresh" =
        some ⟨claims,
          now + expires_delta.getD (settings.REFRESH_TOKEN_EXPIRE_DAYS * 86400),
          now, "refresh"⟩) ∧
    (other_type ≠ "refresh" →
      verify_token settings now2
        (create_refresh_token settings now claims expires_delta) other_type =
          none) ∧
    (now2 < now + settings.EMAIL_VERIFICATION_EXPIRE_HOURS * 3600 →
      verify_token settings now2
          (create_email_verification_token settings now email)
          "email_verification" =
        some ⟨[("sub", email)],
          now + settings.EMAIL_VERIFICATION_EXPIRE_HOURS * 3600,
          now, "email_verification"⟩) ∧
    (other_type ≠ "email_verification" →
      verify_token settings now2
        (create_email_verification_token settings now email) other_type =
          none) ∧
    (now2 < now + settings.PASSWORD_RESET_EXPIRE_HOURS * 3600 →
      verify_token settings now2
          (create_password_reset_token settings now email) "password_reset" =
        some ⟨[("sub", email)],
          now + settings.PASSWORD_RESET_EXPIRE_HOURS * 3600,
          now, "password_reset"⟩) ∧
    (other_type ≠ "password_reset" →
      verify_token settings now2
        (create_password_reset_token settings now email) other_type =
          none) := by
  have hfilter := claims_filter_eq_self claims hclaims
  refine ⟨fun h => ?_, fun h => ?_, fun h => ?_, fun h => ?_,
    fun h => ?_, fun h => ?_, fun h => ?_, fun h => ?_⟩
  · simp [create_access_token, jwt_encode, buildPayload, verify_token,
      jwt_decode, hfilter, h]
  · exact verify_token_type_mismatch settings now2 _ _ _ other_type
      (Ne.symm h)
  · simp [create_refresh_token, jwt_encode, buildPayload, verify_token,
      jwt_decode, hfilter, h]
  · exact verify_token_type_mismatch settings now2 _ _ _ other_type
      (Ne.symm h)
  · simp [create_email_verification_token, jwt_encode, verify_token,
      jwt_decode, h]
  · exact verify_token_type_mismatch settings now2 _ _ _ other_type
      (Ne.symm h)
  · simp [create_password_reset_token, jwt_encode, verify_token,
      jwt_decode, h]
  · exact verify_token_type_mismatch settings now2 _ _ _ other_type
      (Ne.symm h)

/-- The C5 theorem applied at a concrete input: default settings, claims
`[("sub", "1")]`, issue time 0, verify time 5, no custom delta, and the
mismatching expected type "nosuch". -/
theorem token_roundtrip_witness :
    (5 < 0 + (none : Option Nat).getD
        (defaultSettings.ACCESS_TOKEN_EXPIRE_MINUTES * 60) →
      verify_token defaultSettings 5
          (create_access_token defaultSettings 0 [("sub", "1")] none)
          "access" =
        some ⟨[("sub", "1")],
          0 + (none : Option Nat).getD
            (defaultSettings.ACCESS_TOKEN_EXPIRE_MINUTES * 60),
          0, "access"⟩) ∧
    ("nosuch" ≠ "access" →
      verify_token defaultSettings 5
        (create_access_token defaultSettings 0 [("sub", "1")] none)
        "nosuch" = none) ∧
    (5 < 0 + (none : Option Nat).getD
        (defaultSettings.REFRESH_TOKEN_EXPIRE_DAYS * 86400) →
      verify_token defaultSettings 5
          (create_refresh_token defaultSettings 0 [("sub", "1")] none)
          "refresh" =
        some ⟨[("sub", "1")],
          0 + (none : Option Nat).getD
            (defaultSettings.REFRESH_TOKEN_EXPIRE_DAYS * 86400),
          0, "refresh"⟩) ∧
    ("nosuch" ≠ "refresh" →
      verify_token defaultSettings 5
        (create_refresh_token defaultSettings 0 [("sub", "1")] none)
        "nosuch" = none) ∧
    (5 < 0 + defaultSettings.EMAIL_VERIFICATION_EXPIRE_HOURS * 3600 →
      verify_token defaultSettings 5
          (create_email_verification_token defaultSettings 0
            "alice@example.com") "email_verification" =
        some ⟨[("sub", "alice@example.com")],
          0 + defaultSettings.EMAIL_VERIFICATION_EXPIRE_HOURS * 3600,
          0, "email_verification"⟩) ∧
    ("nosuch" ≠ "email_verification" →
      verify_token defaultSettings 5
        (create_email_verification_token defaultSettings 0
          "alice@example.com") "nosuch" = none) ∧
    (5 < 0 + defaultSettings.PASSWORD_RESET_EXPIRE_HOURS * 3600 →
      verify_token defaultSettings 5
          (create_password_reset_token defaultSettings 0
            "alice@example.com") "password_reset" =
        some ⟨[("sub", "alice@example.com")],
          0 + defaultSettings.PASSWORD_RESET_EXPIRE_HOURS * 3600,
          0, "password_reset"⟩) ∧
    ("nosuch" ≠ "password_reset" →
      verify_token defaultSettings 5
        (create_password_reset_token defaultSettings 0
          "alice@example.com") "nosuch" = none) :=
  token_roundtrip defaultSettings 0 5 [("sub", "1")] "alice@example.com"
    none "nosuch" rfl

/-- C6: the source translation `validate_password_strength` agrees with
the spec-side rule table: a password failing some enabled rule yields
`(false, reason)` where the reason is that of the first violated rule in
the fixed order length → uppercase → lowercase → digit → special, each
non-length rule only when its configuration toggle is enabled; a password
satisfying every enabled rule yields `(true, "")`; and the default minimum
length is 8. -/
theorem password_policy_first_violation (settings : Settings)
    (password : String) :
    validate_password_strength settings password =
      (match firstViolation (policyRules settings password) with
        | some reason => (false, reason)
        | none => (true, "")) ∧
    defaultSettings.PASSWORD_MIN_LENGTH = 8 := by
  refine ⟨?_, rfl⟩
  unfold validate_password_strength firstViolation policyRules
  by_cases h1 : password.length < settings.PASSWORD_MIN_LENGTH <;>
  cases hU : settings.PASSWORD_REQUIRE_UPPERCASE <;>
  cases hu : hasAsciiUpper password <;>
  cases hL : settings.PASSWORD_REQUIRE_LOWERCASE <;>
  cases hl : hasAsciiLower password <;>
  cases hD : settings.PASSWORD_REQUIRE_DIGITS <;>
  cases hd : hasAsciiDigit password <;>
  cases hS : settings.PASSWORD_REQUIRE_SPECIAL <;>
  cases hsp : hasSpecialChar password <;>
  simp_all [List.find?, -Nat.not_lt, -not_lt]

/-- C7: when registration through the endpoint succeeds, the persisted
user's email is the lowercased, whitespace-trimmed input email, and the
row is persisted with `is_verified = false` and `is_active = true`. -/
theorem register_normalizes_email (settings : Settings)
    (existingEmails : List String) (email username password : String)
    (user : User)
    (hcreated : register settings existingEmails email username password =
      .created user) :
    user.email = pyLower (pyStrip email) ∧ user.is_verified = false ∧
      user.is_active = true := by
  unfold register at hcreated
  split at hcreated
  · cases hcreated
  · split at hcreated
    · cases hcreated
    · split at hcreated
      · cases hcreated
      · cases hcreated
      · rename_i u2 heq
        obtain rfl := RegisterResult.created.inj hcreated
        simp only [register_user] at heq
        split at heq
        · cases heq
        · split at heq
          · simp at heq
          · obtain rfl := Option.some.inj (Except.ok.inj heq)
            exact ⟨rfl, rfl, rfl⟩

/-- The C7 user as persisted for the witness input below. -/
def c7User : User :=
  { id := 1, email := "alice@example.com", username := "alice",
    hashed_password := get_password_hash "Alice123!", is_verified := false,
    is_active := true, failed_login_attempts := 0, last_failed_login := none,
    account_locked_until := none }

/-- The C7 theorem applied at a concrete registration with an email that
needs both trimming and lowercasing. -/
theorem register_normalizes_email_witness :
    c7User.email = pyLower (pyStrip "  Alice@Example.COM ") ∧
      c7User.is_verified = false ∧ c7User.is_active = true :=
  register_normalizes_email defaultSettings [] "  Alice@Example.COM "
    " alice " "Alice123!" c7User rfl

/-- C9: with a new password that passes the strength policy and a token
that is signed under the configured secret and algorithm and unexpired but
whose type is not password_reset, `reset_password` returns false and
writes no user row (the written-row component is `none`); and for any
password failing the policy, the ValueError is raised before the token is
examined — for every token, including invalid ones. -/
theorem reset_password_wrong_type_untouched (settings : Settings)
    (now : Nat) (findByEmail : String → Option User) (payload : Payload)
    (new_password : String)
    (hstrong : (validate_password_strength settings new_password).1 = true)
    (_hexp : now < payload.exp)
    (htype : payload.type ≠ "password_reset") :
    reset_password settings now findByEmail
        (Token.signed payload settings.SECRET_KEY settings.ALGORITHM)
        new_password = .ok (none, false) ∧
      ∀ (token : Token) (pw : String),
        (validate_password_strength settings pw).1 = false →
        reset_password settings now findByEmail token pw =
          .error (validate_password_strength settings pw).2 := by
  constructor
  · have hs : is_strong_password settings new_password = .ok true := by
      unfold is_strong_password
      rcases hv : validate_password_strength settings new_password with ⟨b, msg⟩
      rw [hv] at hstrong
      simp at hstrong
      subst hstrong
      rfl
    have hvt : verify_token settings now
        (Token.signed payload settings.SECRET_KEY settings.ALGORITHM)
        "password_reset" = none :=
      verify_token_type_mismatch settings now payload settings.SECRET_KEY
        settings.ALGORITHM "password_reset" htype
    unfold reset_password
    rw [hs, hvt]
  · intro token pw hweak
    have hs : is_strong_password settings pw =
        .error (validate_password_strength settings pw).2 := by
      unfold is_strong_password
      rcases hv : validate_password_strength settings pw with ⟨b, msg⟩
      rw [hv] at hweak
      simp at hweak
      subst hweak
      rfl
    unfold reset_password
    rw [hs]

/-- The C9 theorem applied at a concrete input: a strong new password and
a signed, unexpired email-verification token. -/
theorem reset_password_wrong_type_untouched_witness :
    reset_password defaultSettings 0 (fun _ => none)
        (Token.signed ⟨[("sub", "alice@example.com")], 100, 0,
          "email_verification"⟩ defaultSettings.SECRET_KEY
          defaultSettings.ALGORITHM) "Alice123!" = .ok (none, false) ∧
      ∀ (token : Token) (pw : String),
        (validate_password_strength defaultSettings pw).1 = false →
        reset_password defaultSettings 0 (fun _ => none) token pw =
          .error (validate_password_strength defaultSettings pw).2 :=
  reset_password_wrong_type_untouched defaultSettings 0 (fun _ => none)
    ⟨[("sub", "alice@example.com")], 100, 0, "email_verification"⟩
    "Alice123!" rfl (by decide) (by decide)

/-- C10: `refresh_access_token` converts the refresh token's sub claim
with an unguarded `int()`: a validly-signed, unexpired token of type
refresh whose sub does not parse as a decimal integer makes the call raise
ValueError instead of returning the uniform invalid result; and the call
returns the guarded `none` only when verification fails, the sub claim is
missing or empty (falsy, treated as missing by the code), or the sub
parses and the user is absent or inactive. -/
theorem refresh_token_unguarded_int :
    (∀ (settings : Settings) (now : Nat) (users : List User)
        (token : Token),
      refresh_access_token settings now users token = .ok none →
        verify_token settings now token "refresh" = none ∨
        ∃ payload, verify_token settings now token "refresh" = some payload ∧
          (payloadGet payload "sub" = none ∨
           payloadGet payload "sub" = some "" ∨
           ∃ s n, payloadGet payload "sub" = some s ∧ pyInt s = .ok n ∧
             (users.find? (fun u => (u.id : Int) == n) = none ∨
              ∃ u, users.find? (fun u => (u.id : Int) == n) = some u ∧
                u.is_active = false))) ∧
    refresh_access_token defaultSettings 10 []
        (Token.signed ⟨[("sub", "alice@example.com")], 100, 0, "refresh"⟩
          defaultSettings.SECRET_KEY defaultSettings.ALGORITHM) =
      .error "invalid literal for int() with base 10: alice@example.com" := by
  constructor
  · intro settings now users token h
    unfold refresh_access_token at h
    split at h
    · rename_i hv
      exact Or.inl hv
    · rename_i payload hv
      refine Or.inr ⟨payload, hv, ?_⟩
      split at h
      · rename_i hs
        exact Or.inl hs
      · rename_i s hs
        split at h
        · rename_i hse
          exact Or.inr (Or.inl (by rw [hs, show s = "" from eq_of_beq hse]))
        · split at h
          · simp at h
          · rename_i n hp
            refine Or.inr (Or.inr ⟨s, n, hs, hp, ?_⟩)
            split at h
            · rename_i hf
              exact Or.inl hf
            · rename_i u hf
              split at h
              · rename_i ha
                exact Or.inr ⟨u, hf, ha⟩
              · simp at h
  · rfl
